import Mathlib

/-!
# mct-api: middleware pipeline, response envelope and pooled-resource lifecycle

A shallow embedding of the Go sources

* `internal/shared/response.go` (response envelope, error codes),
* `pkg/middleware/cors.go` and `pkg/middleware/recovery.go` (interceptors),
* `pkg/database/postgres.go` and `pkg/database/redis.go` (pool constructors),
* `cmd/server/main.go` (bootstrap: pools, chain registration, routes, listener),

followed by theorems about them.  The gin engine (handler chain, `Next`, `Abort`,
`CustomRecovery`) is embedded as an explicit index-driven loop over a request
context; faults (Go panics) are an explicit outcome of running a handler.
-/

namespace MctApi

/-! ## internal/shared/response.go -/

/-- Serializable payloads carried in `APIResponse.Data` (the Go field is `interface{}`):
the two shapes the program sends, a string and a string-to-string map. -/
inductive Payload where
  | str (s : String)
  | obj (fields : List (String × String))
deriving DecidableEq, Repr

/-- Go struct `APIError`. -/
structure APIError where
  Code : String
  Message : String
  Details : String := ""
deriving DecidableEq, Repr

/-- Go struct `MetaData`. -/
structure MetaData where
  Page : Int := 0
  Limit : Int := 0
  Total : Int := 0
  TotalPages : Int := 0
deriving DecidableEq, Repr

/-- Go struct `APIResponse`; a nil `Data` interface or nil pointer is `none`
(and is dropped from the JSON by `omitempty`). -/
structure APIResponse where
  Success : Bool
  Data : Option Payload := none
  Error : Option APIError := none
  Meta : Option MetaData := none
deriving DecidableEq, Repr

/-- Go type `ErrorCode` (a string). -/
abbrev ErrorCode := String

def ErrInvalidInput : ErrorCode := "INVALID_INPUT"
def ErrUnauthorized : ErrorCode := "UNAUTHORIZED"
def ErrForbidden : ErrorCode := "FORBIDDEN"
def ErrNotFound : ErrorCode := "NOT_FOUND"
def ErrTournamentFull : ErrorCode := "TOURNAMENT_FULL"
def ErrPaymentFailed : ErrorCode := "PAYMENT_FAILED"
def ErrInternalError : ErrorCode := "INTERNAL_ERROR"
def ErrDuplicateEntry : ErrorCode := "DUPLICATE_ENTRY"
def ErrValidationFailed : ErrorCode := "VALIDATION_FAILED"

/-! ## pkg/middleware/cors.go: origin selection -/

/-- The local slice `allowedOrigins` of `getAllowedOrigin`. -/
def allowedOrigins : List String :=
  [ "http://localhost:3000",
    "http://localhost:3001",
    "http://127.0.0.1:3000",
    "http://127.0.0.1:3001" ]

/-- The `for _, allowed := range allowedOrigins` scan of `getAllowedOrigin` with its
early `return requestOrigin`; `none` when the loop falls through. -/
def scanOrigins (requestOrigin : String) : List String → Option String
  | [] => none
  | allowed :: rest =>
    if requestOrigin = allowed then some requestOrigin else scanOrigins requestOrigin rest

/-- The body of `getAllowedOrigin` over an arbitrary allow-list: the scan, then the
`len(allowedOrigins) > 0` fallback to the first entry, then the final `"*"`. -/
def selectOrigin (allowed : List String) (requestOrigin : String) : String :=
  match scanOrigins requestOrigin allowed with
  | some o => o
  | none =>
    if allowed.length > 0 then
      match allowed with
      | first :: _ => first
      | [] => "*"
    else
      "*"

/-- Go function `getAllowedOrigin`. -/
def getAllowedOrigin (requestOrigin : String) : String :=
  selectOrigin allowedOrigins requestOrigin

/-! ## The request context and the gin handler chain -/

/-- The parts of an inbound `http.Request` the interceptors read.  `Header` maps
canonical header names to values; `ClientIP` is what `c.ClientIP()` reports. -/
structure Request where
  Method : String
  Path : String
  Header : List (String × String) := []
  ClientIP : String := ""
  UserAgent : String := ""
deriving DecidableEq, Repr

/-- Go `Header.Get`: the value stored for the key, the empty string when absent. -/
def Request.headerGet (r : Request) (key : String) : String :=
  match r.Header.lookup key with
  | some v => v
  | none => ""

/-- A value passed to Go `panic` and recovered by the recovery interceptor: a string,
an ordinary error, a number, a network error that says the client connection is gone
(`broken pipe`, `connection reset by peer`), or `http.ErrAbortHandler`. -/
inductive FaultValue where
  | text (s : String)
  | error (msg : String)
  | code (n : Int)
  | brokenConnection (msg : String)
  | abortHandler
deriving DecidableEq, Repr

/-- The `brokenPipe` test of gin recovery: the fault says the connection is dead, so no
status can be written to it. -/
def FaultValue.brokenPipe : FaultValue → Bool
  | .brokenConnection _ => true
  | .abortHandler => true
  | .text _ => false
  | .error _ => false
  | .code _ => false

/-- One value of a structured log field. -/
inductive LogValue where
  | str (s : String)
  | fault (v : FaultValue)
deriving DecidableEq, Repr

/-- A structured log entry (logrus): level, message, fields. -/
structure LogEntry where
  level : String
  msg : String
  fields : List (String × LogValue)
deriving DecidableEq, Repr

/-- What a handler asked the response writer to send. -/
inductive ResponseEvent where
  | json (code : Nat) (obj : APIResponse)
  | headerOnly (code : Nat)
  | text (code : Nat) (body : String)
deriving DecidableEq, Repr

/-- The HTTP status a write carries. -/
def ResponseEvent.status : ResponseEvent → Nat
  | .json code _ => code
  | .headerOnly code => code
  | .text code _ => code

/-- The envelope a write carries, if it carries one. -/
def ResponseEvent.envelope : ResponseEvent → Option APIResponse
  | .json _ obj => some obj
  | .headerOnly _ => none
  | .text _ _ => none

/-- Whether a write has a body. -/
def ResponseEvent.hasBody : ResponseEvent → Bool
  | .json _ _ => true
  | .headerOnly _ => false
  | .text _ _ => true

/-- Entry into and normal return from a named handler of the chain, as seen by an
invocation-order probe. -/
inductive ProbeEvent where
  | enter (name : String)
  | leave (name : String)
deriving DecidableEq, Repr

/-- The per-request state (`gin.Context`) threaded through the chain: the request, the
handler index, the response writer (its status, whether the status line and headers have
been sent, the headers set so far), the writes handlers asked for so far, the errors
attached with `c.Error`, and the log entries and probe events emitted so far. -/
structure Context where
  request : Request
  index : Int := -1
  status : Nat := 200
  written : Bool := false
  respHeader : List (String × String) := []
  writes : List ResponseEvent := []
  errors : List FaultValue := []
  logs : List LogEntry := []
  trace : List ProbeEvent := []
deriving DecidableEq, Repr

/-- The index value `Abort` stores (gin `abortIndex`). -/
def abortIndex : Int := 63

/-- Go `http.Header` `Set` and `Del` as gin combines them: an empty value deletes the
key, any other value replaces what the key had. -/
def setHeader (hs : List (String × String)) (key value : String) : List (String × String) :=
  if value = "" then
    hs.filter (fun kv => kv.1 != key)
  else
    hs.filter (fun kv => kv.1 != key) ++ [(key, value)]

/-- Go `c.Header(key, value)`: set the response header, or delete it when the value is
empty. -/
def Context.Header (c : Context) (key value : String) : Context :=
  { c with respHeader := setHeader c.respHeader key value }

/-- The response header currently set for a key. -/
def Context.respHeaderGet (c : Context) (key : String) : Option String :=
  c.respHeader.lookup key

/-- Go `c.Abort()`: no handler after the current one runs. -/
def Context.Abort (c : Context) : Context :=
  { c with index := abortIndex }

/-- Go `c.IsAborted()`. -/
def Context.IsAborted (c : Context) : Bool :=
  decide (c.index ≥ abortIndex)

/-- Go `c.Status(code)`, that is the writer `WriteHeader(code)`: the status changes only
while the status line has not been sent. -/
def Context.Status (c : Context) (code : Nat) : Context :=
  if code > 0 ∧ c.status ≠ code then
    if c.written then c else { c with status := code }
  else
    c

/-- Go `c.Writer.WriteHeaderNow()`: send the status line and headers unless they have been
sent already. -/
def Context.WriteHeaderNow (c : Context) : Context :=
  if c.written then c else { c with written := true }

/-- Go `c.Error(err)`: attach an error to the context. -/
def Context.Error (c : Context) (err : FaultValue) : Context :=
  { c with errors := c.errors ++ [err] }

/-- Go `c.AbortWithStatus(code)`: set the status, send the status line and headers with
no body, then abort. -/
def Context.AbortWithStatus (c : Context) (code : Nat) : Context :=
  let c := c.Status code
  let c := c.WriteHeaderNow
  ({ c with writes := c.writes ++ [ResponseEvent.headerOnly code] }).Abort

/-- The gin test `bodyAllowedForStatus`: no body for 1xx, 204 and 304. -/
def bodyAllowedForStatus (code : Nat) : Bool :=
  !((decide (100 ≤ code) && decide (code ≤ 199)) || code == 204 || code == 304)

/-- The gin helper `writeContentType`: set `Content-Type` unless the header has one. -/
def writeContentType (hs : List (String × String)) (value : String) :
    List (String × String) :=
  match hs.lookup "Content-Type" with
  | some _ => hs
  | none => hs ++ [("Content-Type", value)]

/-- Go `c.JSON(code, obj)`: set the status, set the JSON content type unless one is set,
and send the envelope; the status line goes out with the first write, and for a status
that allows no body only the header is sent. -/
def Context.JSON (c : Context) (code : Nat) (obj : APIResponse) : Context :=
  let c := c.Status code
  let c := { c with
    respHeader := writeContentType c.respHeader "application/json; charset=utf-8" }
  let c := c.WriteHeaderNow
  if bodyAllowedForStatus code then
    { c with writes := c.writes ++ [ResponseEvent.json code obj] }
  else
    { c with writes := c.writes ++ [ResponseEvent.headerOnly code] }

/-- A raw write through `c.Writer`: the status of the write is set, the status line goes
out if it has not yet, and the write is recorded. -/
def Context.send (c : Context) (e : ResponseEvent) : Context :=
  let c := c.Status e.status
  let c := c.WriteHeaderNow
  { c with writes := c.writes ++ [e] }

/-- Emit a log entry. -/
def Context.log (c : Context) (e : LogEntry) : Context :=
  { c with logs := c.logs ++ [e] }

/-- A fault in flight: the panic value and the stack captured for it. -/
structure Panic where
  value : FaultValue
  stack : String := ""
deriving DecidableEq, Repr

/-- How running a handler ends: it returns, it panics (the context keeps every effect
made before the fault), or the evaluation budget is exhausted. -/
inductive Outcome where
  | returned (c : Context)
  | panicked (c : Context) (p : Panic)
  | outOfFuel
deriving DecidableEq, Repr

/-- A gin handler; its first argument is what `c.Next()` does when it calls it. -/
abbrev HandlerFunc := (Context → Outcome) → Context → Outcome

/-- A handler chain with the handler names the probe reports. -/
abbrev HandlersChain := List (String × HandlerFunc)

/-- The loop of `c.Next()`:
`for c.index < len(c.handlers) { c.handlers[c.index](c); c.index++ }`.
A panic leaves the loop at once. -/
def handlerLoop (handlers : HandlersChain) (next : Context → Outcome) :
    Nat → Context → Outcome
  | 0, c => if c.index < handlers.length then .outOfFuel else .returned c
  | fuel + 1, c =>
    if c.index < handlers.length then
      match handlers.get? c.index.toNat with
      | none => .returned c
      | some (name, h) =>
        match h next { c with trace := c.trace ++ [.enter name] } with
        | .returned c1 =>
          handlerLoop handlers next fuel
            { c1 with index := c1.index + 1, trace := c1.trace ++ [.leave name] }
        | .panicked c1 p => .panicked c1 p
        | .outOfFuel => .outOfFuel
    else
      .returned c

/-- Go `c.Next()`: `c.index++` and then the loop; handlers reached from here call the
next level of `Next`. -/
def Next (handlers : HandlersChain) : Nat → Context → Outcome
  | 0, _ => .outOfFuel
  | fuel + 1, c =>
    handlerLoop handlers (Next handlers fuel) fuel { c with index := c.index + 1 }

/-- Go `gin.CustomRecovery(handle)`: run the rest of the chain in a protected scope.
When it panics with a fault that says the connection is dead, attach the error and abort
without writing; on any other fault call `handle` with the recovered value. -/
def CustomRecovery (handle : Context → FaultValue → String → Context) : HandlerFunc :=
  fun next c =>
    match next c with
    | .panicked c1 p =>
      if p.value.brokenPipe then
        .returned ((c1.Error p.value).Abort)
      else
        .returned (handle c1 p.value p.stack)
    | .returned c1 => .returned c1
    | .outOfFuel => .outOfFuel

/-! ## pkg/middleware/cors.go and pkg/middleware/recovery.go -/

/-- Go function `CORS`. -/
def CORS : HandlerFunc := fun next c =>
  let origin := c.request.headerGet "Origin"
  let c := c.Header "Access-Control-Allow-Origin" (getAllowedOrigin origin)
  let c := c.Header "Access-Control-Allow-Credentials" "true"
  let c := c.Header "Access-Control-Allow-Headers" "Content-Type, Content-Length, Accept-Encoding, X-CSRF-Token, Authorization, accept, origin, Cache-Control, X-Requested-With"
  let c := c.Header "Access-Control-Allow-Methods" "POST, OPTIONS, GET, PUT, DELETE, PATCH"
  if c.request.Method = "OPTIONS" then
    .returned (c.AbortWithStatus 204)
  else
    next c

/-- The envelope the recovery callback sends. -/
def recoveryEnvelope : APIResponse :=
  { Success := false,
    Error := some { Code := ErrInternalError, Message := "An unexpected error occurred" } }

/-- The callback `Recovery` passes to `gin.CustomRecovery`: log the panic, then send
the standardized error response. -/
def recoveryHandle (c : Context) (recovered : FaultValue) (stack : String) : Context :=
  let c := c.log
    { level := "error", msg := "Panic recovered",
      fields := [ ("panic", .fault recovered),
                  ("stack", .str stack),
                  ("method", .str c.request.Method),
                  ("path", .str c.request.Path),
                  ("client_ip", .str c.request.ClientIP),
                  ("user_agent", .str c.request.UserAgent) ] }
  c.JSON 500 recoveryEnvelope

/-- Go function `Recovery`. -/
def Recovery : HandlerFunc := CustomRecovery recoveryHandle

/-- Modelled from the spec: the logging interceptor `middleware.Logger`, whose source
file is not among the sources.  It records method, path and client address for every
request that comes back to it, never rewrites the response and never short-circuits.
What else it records (status, latency) is left to `extra`. -/
def Logger (extra : Context → List (String × LogValue)) : HandlerFunc := fun next c =>
  match next c with
  | .returned c1 =>
    .returned (c1.log
      { level := "info", msg := "request",
        fields := [ ("method", .str c1.request.Method),
                    ("path", .str c1.request.Path),
                    ("client_ip", .str c1.request.ClientIP) ] ++ extra c1 })
  | .panicked c1 p => .panicked c1 p
  | .outOfFuel => .outOfFuel

/-! ## The router of cmd/server/main.go -/

/-- A route group (gin `RouterGroup`): a base path and the handlers every route
registered through it starts with. -/
structure RouterGroup where
  basePath : String := "/"
  Handlers : HandlersChain := []

/-- A registered route: method, full path and its complete handler chain. -/
structure RouteInfo where
  Method : String
  Path : String
  Handlers : HandlersChain

/-- The gin engine: its root group and the routes registered so far. -/
structure Engine where
  group : RouterGroup := {}
  routes : List RouteInfo := []

/-- Go `gin.New()`. -/
def Engine.New : Engine := {}

/-- Go `router.Use(h)`: append a middleware to the root group. -/
def Engine.Use (e : Engine) (name : String) (h : HandlerFunc) : Engine :=
  { e with group := { e.group with Handlers := e.group.Handlers ++ [(name, h)] } }

/-- Go `group.Group(relativePath)`: a child group that starts with the handlers the
parent has at this moment. -/
def RouterGroup.Group (g : RouterGroup) (relativePath : String) : RouterGroup :=
  { basePath := (if g.basePath = "/" then "" else g.basePath) ++ relativePath,
    Handlers := g.Handlers }

/-- Go `group.GET(relativePath, h)`: register the route with the group handlers
followed by `h`. -/
def Engine.GET (e : Engine) (g : RouterGroup) (relativePath : String) (h : HandlerFunc) :
    Engine :=
  { e with routes := e.routes ++
      [{ Method := "GET",
         Path := (if g.basePath = "/" then "" else g.basePath) ++ relativePath,
         Handlers := g.Handlers ++ [("handler", h)] }] }

/-- The chain gin runs for a request that matches no route (which includes every
`OPTIONS` request here, as only `GET` routes are registered): the root middleware.  The
404 body gin itself sends afterwards when nothing was written is not part of the chain. -/
def Engine.allNoRoute (e : Engine) : HandlersChain := e.group.Handlers

/-- The envelope of `GET /health`. -/
def healthEnvelope : APIResponse :=
  { Success := true,
    Data := some (.obj [("status", "ok"), ("service", "mct-api")]) }

/-- The envelope of `GET /api/v1/ping`. -/
def pingEnvelope : APIResponse :=
  { Success := true, Data := some (.str "pong") }

/-- The handler registered for `/health`. -/
def healthHandler : HandlerFunc := fun _ c => .returned (c.JSON 200 healthEnvelope)

/-- The handler registered for `/api/v1/ping`. -/
def pingHandler : HandlerFunc := fun _ c => .returned (c.JSON 200 pingEnvelope)

/-- The router `main` builds: three `Use` calls, then the two routes. -/
def mainRouter (extra : Context → List (String × LogValue)) : Engine :=
  let router := Engine.New
  let router := router.Use "logging" (Logger extra)
  let router := router.Use "recovery" Recovery
  let router := router.Use "cors" CORS
  let router := router.GET router.group "/health" healthHandler
  let v1 := router.group.Group "/api/v1"
  let router := router.GET v1 "/ping" pingHandler
  router

/-- A test handler: it issues the given writes, in order, through the response writer
and then either returns or panics. -/
def stubHandler (effects : List ResponseEvent) (fault : Option Panic) : HandlerFunc :=
  fun _ c =>
    let c := effects.foldl Context.send c
    match fault with
    | none => .returned c
    | some p => .panicked c p

/-- The fresh context gin hands to the chain for a request. -/
def freshContext (req : Request) : Context := { request := req }

/-- What the client can observe of an outcome: the status of the response, whether a
response was sent at all, the response headers and the writes. -/
def Outcome.clientView :
    Outcome → Option (Nat × Bool × List (String × String) × List ResponseEvent)
  | .returned c => some (c.status, c.written, c.respHeader, c.writes)
  | .panicked _ _ => none
  | .outOfFuel => none

/-- The envelope invariant: success with data and no error, or failure with an error
and no data. -/
def APIResponse.wellFormed (r : APIResponse) : Bool :=
  (r.Success && r.Data.isSome && r.Error.isNone) ||
  (!r.Success && r.Error.isSome && r.Data.isNone)

/-! ## pkg/database/postgres.go and pkg/database/redis.go -/

/-- The process environment: `none` for a variable that is not set, `some v` for one
that is set to `v` (possibly the empty string). -/
abbrev Env := String → Option String

/-- Go `os.Getenv`: the value of the variable, empty when it is not present. -/
def Getenv (env : Env) (key : String) : String :=
  match env key with
  | some v => v
  | none => ""

/-- Go function `getEnvOrDefault`. -/
def getEnvOrDefault (env : Env) (key defaultValue : String) : String :=
  let value := Getenv env key
  if value ≠ "" then value else defaultValue

/-- Go `time.Duration`, in nanoseconds. -/
abbrev Duration := Nat

/-- Go `time.Second`. -/
def Second : Duration := 1000000000

/-- Go `time.Minute`. -/
def Minute : Duration := 60 * Second

/-- The two backing stores. -/
inductive Store where
  | postgres
  | redis
deriving DecidableEq, Repr

/-- How one liveness probe ends. -/
inductive PingOutcome where
  | ok
  | failed (msg : String)
  | timedOut
deriving DecidableEq, Repr

/-- The Go error a probe outcome yields (`none` is a nil error). -/
def PingOutcome.err : PingOutcome → Option String
  | .ok => none
  | .failed msg => some msg
  | .timedOut => some "context deadline exceeded"

/-- A liveness probe as issued: the store it went to and the deadline of the context
it was issued with (`none` for a context without deadline). -/
structure Probe where
  store : Store
  deadline : Option Duration
deriving DecidableEq, Repr

/-- The outside world of the constructors: whether `sql.Open` accepts a connection
string, and how the k-th probe sent to a store ends (k counts from 0). -/
structure Backend where
  sqlOpen : String → Option String
  ping : Store → Nat → PingOutcome

/-- Issue one probe: its outcome is the one the backend has for the next probe of that
store, and the probe is appended to the record of issued probes. -/
def Backend.Ping (w : Backend) (store : Store) (deadline : Option Duration)
    (issued : List Probe) : PingOutcome × List Probe :=
  (w.ping store (issued.filter (fun p => p.store = store)).length,
   issued ++ [{ store := store, deadline := deadline }])

/-- The relational pool handle (`sql.DB`) with its pool settings. -/
structure DB where
  connStr : String
  MaxOpenConns : Nat := 0
  MaxIdleConns : Nat := 2
  ConnMaxLifetime : Duration := 0
  ConnMaxIdleTime : Duration := 0
deriving DecidableEq, Repr

/-- The key-value client (`redis.Client`) with its `redis.Options`. -/
structure RedisClient where
  Addr : String
  Password : String
  DB : Int
  PoolSize : Nat
  MinIdleConns : Nat
  DialTimeout : Duration
  ReadTimeout : Duration
  WriteTimeout : Duration
  PoolTimeout : Duration
  IdleTimeout : Duration
deriving DecidableEq, Repr

/-- What a constructor hands back, as in Go: a client pointer (nil is `none`), an
error (nil is `none`), together with the probes it issued. -/
structure Conn (α : Type) where
  client : Option α
  err : Option String
  probes : List Probe

/-- Go function `NewPostgresConnection`. -/
def NewPostgresConnection (env : Env) (w : Backend) : Conn DB :=
  let host := getEnvOrDefault env "DB_HOST" "localhost"
  let port := getEnvOrDefault env "DB_PORT" "5432"
  let user := getEnvOrDefault env "DB_USER" "postgres"
  let password := getEnvOrDefault env "DB_PASSWORD" "password"
  let dbname := getEnvOrDefault env "DB_NAME" "mct_api"
  let sslmode := getEnvOrDefault env "DB_SSLMODE" "disable"
  let connStr := "host=" ++ host ++ " port=" ++ port ++ " user=" ++ user ++
    " password=" ++ password ++ " dbname=" ++ dbname ++ " sslmode=" ++ sslmode
  match w.sqlOpen connStr with
  | some err =>
    { client := none, err := some ("failed to open database connection: " ++ err),
      probes := [] }
  | none =>
    let db : DB := { connStr := connStr }
    let db := { db with MaxOpenConns := 25 }
    let db := { db with MaxIdleConns := 5 }
    let db := { db with ConnMaxLifetime := 5 * Minute }
    let db := { db with ConnMaxIdleTime := 1 * Minute }
    -- db.Ping(): issued on the background context, which has no deadline
    let (r, probes) := w.Ping .postgres none []
    match r.err with
    | some err =>
      { client := none, err := some ("failed to ping database: " ++ err), probes := probes }
    | none =>
      { client := some db, err := none, probes := probes }

/-- Go `strconv.Atoi`: an optional sign, then decimal digits, within the 64-bit range;
otherwise the error text of `strconv`. -/
def Atoi (s : String) : Except String Int :=
  let quoted := String.singleton (Char.ofNat 34) ++ s ++ String.singleton (Char.ofNat 34)
  let (neg, ds) :=
    match s.toList with
    | '+' :: r => (false, r)
    | '-' :: r => (true, r)
    | r => (false, r)
  if ds.isEmpty || !ds.all Char.isDigit then
    .error ("strconv.Atoi: parsing " ++ quoted ++ ": invalid syntax")
  else
    let n : Nat := ds.foldl (fun a ch => 10 * a + (ch.toNat - 48)) 0
    if (neg && decide (n ≤ 2 ^ 63)) || (!neg && decide (n < 2 ^ 63)) then
      .ok (if neg then -(n : Int) else (n : Int))
    else
      .error ("strconv.Atoi: parsing " ++ quoted ++ ": value out of range")

/-- Go function `NewRedisConnection`. -/
def NewRedisConnection (env : Env) (w : Backend) : Conn RedisClient :=
  let addr := getEnvOrDefault env "REDIS_ADDR" "localhost:6379"
  let password := getEnvOrDefault env "REDIS_PASSWORD" ""
  let dbStr := getEnvOrDefault env "REDIS_DB" "0"
  match Atoi dbStr with
  | .error err =>
    { client := none, err := some ("invalid REDIS_DB value: " ++ err), probes := [] }
  | .ok db =>
    let rdb : RedisClient :=
      { Addr := addr, Password := password, DB := db,
        PoolSize := 10, MinIdleConns := 3,
        DialTimeout := 5 * Second, ReadTimeout := 3 * Second,
        WriteTimeout := 3 * Second, PoolTimeout := 4 * Second,
        IdleTimeout := 5 * Minute }
    -- ctx, cancel := context.WithTimeout(context.Background(), 5*time.Second)
    let ctxDeadline : Option Duration := some (5 * Second)
    let (r, probes) := w.Ping .redis ctxDeadline []
    match r.err with
    | some err =>
      { client := none, err := some ("failed to ping Redis: " ++ err), probes := probes }
    | none =>
      { client := some rdb, err := none, probes := probes }

/-! ## cmd/server/main.go: bootstrap -/

/-- What the bootstrap does that an observer of the process can see. -/
inductive BootEvent where
  | acquired (s : Store)
  | closed (s : Store)
  | fatal (msg : String)
  | info (msg : String)
  | listen (addr : String)
  | exit (code : Nat)
  | mainReturned
deriving DecidableEq, Repr

/-- The state of `main` while it runs: the events so far and the stack of deferred
calls (most recent first). -/
structure Proc where
  events : List BootEvent := []
  deferred : List BootEvent := []
deriving DecidableEq, Repr

/-- Record an event. -/
def Proc.emit (p : Proc) (e : BootEvent) : Proc :=
  { p with events := p.events ++ [e] }

/-- Go `defer`: push a call on the deferred stack. -/
def Proc.defer (p : Proc) (e : BootEvent) : Proc :=
  { p with deferred := e :: p.deferred }

/-- The logrus `Fatal` call: write the entry, then `os.Exit(1)`.  The process ends
there; deferred calls are not run. -/
def Proc.Fatal (p : Proc) (msg : String) : List BootEvent :=
  p.events ++ [.fatal msg, .exit 1]

/-- Return from `main`: the deferred calls run, most recent first. -/
def Proc.ret (p : Proc) : List BootEvent :=
  p.events ++ p.deferred ++ [.mainReturned]

/-- Go function `main`, from the pool constructors on.  `run` is what `router.Run`
returns for the listen address once it returns (`none` is a nil error). -/
def main (env : Env) (w : Backend) (run : String → Option String) : List BootEvent :=
  let p : Proc := {}
  let db := NewPostgresConnection env w
  match db.err with
  | some _ => p.Fatal "Failed to connect to PostgreSQL"
  | none =>
    let p := p.emit (.acquired .postgres)
    let p := p.defer (.closed .postgres)
    let redis := NewRedisConnection env w
    match redis.err with
    | some _ => p.Fatal "Failed to connect to Redis"
    | none =>
      let p := p.emit (.acquired .redis)
      let p := p.defer (.closed .redis)
      let port := Getenv env "PORT"
      let port := if port = "" then "8080" else port
      let p := p.emit (.info "Starting server")
      let p := p.emit (.listen (":" ++ port))
      match run (":" ++ port) with
      | some _ => p.Fatal "Failed to start server"
      | none => p.ret

/-! ## Auxiliary definitions used in the statements -/

/-- The response headers after the four `c.Header` calls of `CORS`, for a request
origin `o` and the headers `hs` set before. -/
def corsHeaders (o : String) (hs : List (String × String)) : List (String × String) :=
  setHeader (setHeader (setHeader (setHeader hs
    "Access-Control-Allow-Origin" (getAllowedOrigin o))
    "Access-Control-Allow-Credentials" "true")
    "Access-Control-Allow-Headers" "Content-Type, Content-Length, Accept-Encoding, X-CSRF-Token, Authorization, accept, origin, Cache-Control, X-Requested-With")
    "Access-Control-Allow-Methods" "POST, OPTIONS, GET, PUT, DELETE, PATCH"

/-- The middleware `main` registers, in registration order. -/
def middleware (extra : Context → List (String × LogValue)) : HandlersChain :=
  [("logging", Logger extra), ("recovery", Recovery), ("cors", CORS)]

/-- The entry the logging interceptor writes when the chain comes back to it. -/
def accessLog (extra : Context → List (String × LogValue)) (c : Context) : LogEntry :=
  { level := "info", msg := "request",
    fields := [ ("method", .str c.request.Method),
                ("path", .str c.request.Path),
                ("client_ip", .str c.request.ClientIP) ] ++ extra c }

/-- The context in which a preflight request comes back to the logging interceptor. -/
def preflightContext (req : Request) : Context :=
  { request := req, index := 65,
    status := 204, written := true,
    respHeader := corsHeaders (req.headerGet "Origin") [],
    writes := [.headerOnly 204],
    trace := [.enter "logging", .enter "recovery", .enter "cors", .leave "cors",
              .leave "recovery"] }

/-- The context the handler at the end of a route chain receives for a request that
is not a preflight. -/
def handlerContext (req : Request) : Context :=
  { request := req, index := 3,
    respHeader := corsHeaders (req.headerGet "Origin") [],
    trace := [.enter "logging", .enter "recovery", .enter "cors", .enter "handler"] }

/-- The probe trace of a request that a route handler answers. -/
def servedTrace : List ProbeEvent :=
  [.enter "logging", .enter "recovery", .enter "cors", .enter "handler",
   .leave "handler", .leave "cors", .leave "recovery", .leave "logging"]

/-- The probe trace of a request whose route handler panics. -/
def recoveredTrace : List ProbeEvent :=
  [.enter "logging", .enter "recovery", .enter "cors", .enter "handler",
   .leave "recovery", .leave "logging"]

/-- The probe trace of a preflight request, and of a request no route matches. -/
def shortTrace : List ProbeEvent :=
  [.enter "logging", .enter "recovery", .enter "cors",
   .leave "cors", .leave "recovery", .leave "logging"]

/-- A logging interceptor that records nothing beyond method, path and client address. -/
def noExtra : Context → List (String × LogValue) := fun _ => []

/-- A sample `GET /health` request from an allow-listed origin. -/
def healthRequest : Request :=
  { Method := "GET", Path := "/health", Header := [("Origin", "http://127.0.0.1:3001")] }

/-- A sample preflight request from an origin outside the allow-list. -/
def preflightRequest : Request :=
  { Method := "OPTIONS", Path := "/api/v1/ping", Header := [("Origin", "https://evil.example")] }

/-- An environment in which no variable is set. -/
def emptyEnv : Env := fun _ => none

/-- An environment in which `DB_PASSWORD` is set to the empty string and `DB_HOST` to a
host name. -/
def blankPasswordEnv : Env := fun k =>
  if k = "DB_PASSWORD" then some ""
  else if k = "DB_HOST" then some "db.internal"
  else none

/-- A backend where everything succeeds. -/
def healthyBackend : Backend :=
  { sqlOpen := fun _ => none, ping := fun _ _ => .ok }

/-- A backend where the relational store answers and the first probe of the key-value
store times out (later probes would succeed). -/
def redisDownBackend : Backend :=
  { sqlOpen := fun _ => none,
    ping := fun s k => if s = .redis ∧ k = 0 then .timedOut else .ok }

/-- A backend where the first probe of the relational store is refused (later probes
would succeed). -/
def postgresDownBackend : Backend :=
  { sqlOpen := fun _ => none,
    ping := fun s k => if s = .postgres ∧ k = 0 then .failed "connection refused" else .ok }

/-- A listener that fails to bind. -/
def bindFails : String → Option String := fun _ => some "listen tcp: address already in use"

/-- A listener whose `Run` returns a nil error. -/
def runReturns : String → Option String := fun _ => none

/-! ## Lemmas about the embedding -/

theorem lookup_cons_same (k v : String) (es : List (String × String)) :
    ((k, v) :: es).lookup k = some v := by
  simp [List.lookup]

theorem lookup_cons_other (k a v : String) (es : List (String × String)) (h : k ≠ a) :
    ((a, v) :: es).lookup k = es.lookup k := by
  have hb : (k == a) = false := by simp [h]
  simp [List.lookup, hb]

theorem lookup_filter_append_same (k : String) (tail : List (String × String)) :
    ∀ hs : List (String × String),
      (hs.filter (fun kv => kv.1 != k) ++ tail).lookup k = tail.lookup k
  | [] => rfl
  | (a, b) :: rest => by
    by_cases hak : a = k
    · have hf : (a != k) = false := by simp [hak]
      simp only [List.filter_cons, hf]
      exact lookup_filter_append_same k tail rest
    · have hf : (a != k) = true := by simp [hak]
      simp only [List.filter_cons, hf]
      rw [if_pos trivial, List.cons_append, lookup_cons_other k a b _ (fun h => hak h.symm)]
      exact lookup_filter_append_same k tail rest

theorem lookup_filter_append_other (k k2 : String) (hk : k2 ≠ k) (tail : List (String × String)) :
    ∀ hs : List (String × String),
      (hs.filter (fun kv => kv.1 != k) ++ tail).lookup k2 = (hs ++ tail).lookup k2
  | [] => rfl
  | (a, b) :: rest => by
    by_cases hak : a = k
    · have hf : (a != k) = false := by simp [hak]
      simp only [List.filter_cons, hf]
      rw [List.cons_append, lookup_cons_other k2 a b _ (fun h => hk (h.trans hak))]
      exact lookup_filter_append_other k k2 hk tail rest
    · have hf : (a != k) = true := by simp [hak]
      simp only [List.filter_cons, hf]
      rw [if_pos trivial, List.cons_append, List.cons_append]
      by_cases h2 : k2 = a
      · subst h2
        rw [lookup_cons_same, lookup_cons_same]
      · rw [lookup_cons_other k2 a b _ h2, lookup_cons_other k2 a b _ h2]
        exact lookup_filter_append_other k k2 hk tail rest

theorem lookup_append_singleton_other (k k2 v : String) (hk : k2 ≠ k) :
    ∀ hs : List (String × String), (hs ++ [(k, v)]).lookup k2 = hs.lookup k2
  | [] => by
    rw [List.nil_append, lookup_cons_other k2 k v _ hk]
  | (a, b) :: rest => by
    rw [List.cons_append]
    by_cases h2 : k2 = a
    · subst h2
      rw [lookup_cons_same, lookup_cons_same]
    · rw [lookup_cons_other k2 a b _ h2, lookup_cons_other k2 a b _ h2]
      exact lookup_append_singleton_other k k2 v hk rest

theorem lookup_setHeader_same (hs : List (String × String)) (k v : String) (hv : v ≠ "") :
    (setHeader hs k v).lookup k = some v := by
  unfold setHeader
  rw [if_neg hv, lookup_filter_append_same, lookup_cons_same]

theorem lookup_setHeader_other (hs : List (String × String)) (k k2 v : String)
    (hk : k2 ≠ k) (hv : v ≠ "") :
    (setHeader hs k v).lookup k2 = hs.lookup k2 := by
  unfold setHeader
  rw [if_neg hv, lookup_filter_append_other k k2 hk, lookup_append_singleton_other k k2 v hk]

theorem CORS_eq (next : Context → Outcome) (c : Context) :
    CORS next c =
      if c.request.Method = "OPTIONS" then
        .returned (Context.AbortWithStatus
          { c with respHeader := corsHeaders (c.request.headerGet "Origin") c.respHeader } 204)
      else
        next { c with respHeader := corsHeaders (c.request.headerGet "Origin") c.respHeader } := by
  rfl

theorem getAllowedOrigin_eq (o : String) :
    getAllowedOrigin o = if o ∈ allowedOrigins then o else "http://localhost:3000" := by
  unfold getAllowedOrigin selectOrigin allowedOrigins
  simp only [scanOrigins]
  split_ifs <;> simp_all

theorem handlerLoop_done (handlers : HandlersChain) (next : Context → Outcome) (fuel : Nat)
    (c : Context) (h : ¬ c.index < handlers.length) :
    handlerLoop handlers next fuel c = .returned c := by
  cases fuel <;> simp [handlerLoop, h]

theorem AbortWithStatus_proj (c : Context) (code : Nat) :
    (c.AbortWithStatus code).writes = c.writes ++ [.headerOnly code] ∧
    (c.AbortWithStatus code).index = abortIndex ∧
    (c.AbortWithStatus code).respHeader = c.respHeader ∧
    (c.AbortWithStatus code).trace = c.trace ∧
    (c.AbortWithStatus code).logs = c.logs ∧
    (c.AbortWithStatus code).request = c.request ∧
    (c.AbortWithStatus code).written = true := by
  by_cases hs : code > 0 ∧ c.status ≠ code <;> cases hw : c.written <;>
    simp [Context.AbortWithStatus, Context.Abort, Context.WriteHeaderNow, Context.Status,
      hs, hw]

theorem send_proj (c : Context) (e : ResponseEvent) :
    (c.send e).writes = c.writes ++ [e] ∧
    (c.send e).index = c.index ∧
    (c.send e).respHeader = c.respHeader ∧
    (c.send e).trace = c.trace ∧
    (c.send e).logs = c.logs ∧
    (c.send e).request = c.request ∧
    (c.send e).errors = c.errors := by
  by_cases hs : e.status > 0 ∧ c.status ≠ e.status <;> cases hw : c.written <;>
    simp [Context.send, Context.WriteHeaderNow, Context.Status, hs, hw]

theorem foldl_send_proj (effects : List ResponseEvent) :
    ∀ c : Context,
      (effects.foldl Context.send c).writes = c.writes ++ effects ∧
      (effects.foldl Context.send c).index = c.index ∧
      (effects.foldl Context.send c).respHeader = c.respHeader ∧
      (effects.foldl Context.send c).trace = c.trace ∧
      (effects.foldl Context.send c).logs = c.logs ∧
      (effects.foldl Context.send c).request = c.request ∧
      (effects.foldl Context.send c).errors = c.errors := by
  induction effects with
  | nil => intro c; simp
  | cons e rest ih =>
    intro c
    obtain ⟨h1, h2, h3, h4, h5, h6, h7⟩ := ih (c.send e)
    obtain ⟨s1, s2, s3, s4, s5, s6, s7⟩ := send_proj c e
    simp only [List.foldl_cons]
    refine ⟨?_, ?_, ?_, ?_, ?_, ?_, ?_⟩
    · rw [h1, s1]; simp
    · rw [h2, s2]
    · rw [h3, s3]
    · rw [h4, s4]
    · rw [h5, s5]
    · rw [h6, s6]
    · rw [h7, s7]

theorem JSON_proj (c : Context) (code : Nat) (obj : APIResponse) :
    (c.JSON code obj).index = c.index ∧
    (c.JSON code obj).trace = c.trace ∧
    (c.JSON code obj).logs = c.logs ∧
    (c.JSON code obj).request = c.request ∧
    (c.JSON code obj).errors = c.errors ∧
    (c.JSON code obj).written = true ∧
    (c.JSON code obj).respHeader =
      writeContentType c.respHeader "application/json; charset=utf-8" ∧
    (c.JSON code obj).status = (c.Status code).status := by
  by_cases hs : code > 0 ∧ c.status ≠ code <;> cases hw : c.written <;>
    cases hb : bodyAllowedForStatus code <;>
    simp [Context.JSON, Context.WriteHeaderNow, Context.Status, hs, hw, hb]

theorem JSON_writes (c : Context) (code : Nat) (obj : APIResponse)
    (h : bodyAllowedForStatus code = true) :
    (c.JSON code obj).writes = c.writes ++ [.json code obj] := by
  by_cases hs : code > 0 ∧ c.status ≠ code <;> cases hw : c.written <;>
    simp [Context.JSON, Context.WriteHeaderNow, Context.Status, hs, hw, h]

theorem run_options (extra : Context → List (String × LogValue)) (h : HandlerFunc)
    (fuel : Nat) (req : Request) (hm : req.Method = "OPTIONS") :
    Next (middleware extra ++ [("handler", h)]) (fuel + 5) (freshContext req) =
      .returned { preflightContext req with
        index := 66,
        logs := [accessLog extra (preflightContext req)],
        trace := (preflightContext req).trace ++ [.leave "logging"] } := by
  simp [Next, handlerLoop, middleware, freshContext, Logger, Recovery, CustomRecovery, CORS_eq,
     hm, abortIndex, handlerLoop_done, Context.log, accessLog, preflightContext,
     Context.AbortWithStatus, Context.Abort, Context.Status, Context.WriteHeaderNow]

theorem run_noRoute (extra : Context → List (String × LogValue))
    (fuel : Nat) (req : Request) :
    ∃ c, Next (middleware extra) (fuel + 4) (freshContext req) = .returned c ∧
      c.writes = (if req.Method = "OPTIONS" then [.headerOnly 204] else []) ∧
      c.trace = shortTrace ∧
      c.respHeader = corsHeaders (req.headerGet "Origin") [] := by
  by_cases hm : req.Method = "OPTIONS" <;>
  simp [Next, handlerLoop, middleware, freshContext, Logger, Recovery, CustomRecovery, CORS_eq,
     hm, abortIndex, handlerLoop_done, Context.log, accessLog, shortTrace,
     Context.AbortWithStatus, Context.Abort, Context.Status, Context.WriteHeaderNow]

/-- A handler that applies `f` to the context and returns. -/
theorem run_leaf_returns (extra : Context → List (String × LogValue))
    (f : Context → Context)
    (fuel : Nat) (req : Request) (hm : req.Method ≠ "OPTIONS")
    (hidx : (f (handlerContext req)).index = 3) :
    Next (middleware extra ++ [("handler", fun _ c => .returned (f c))]) (fuel + 5)
        (freshContext req) =
      .returned
        (let c : Context := { f (handlerContext req) with
            index := 6,
            trace := (f (handlerContext req)).trace ++
              [.leave "handler", .leave "cors", .leave "recovery"] }
         { c with index := 7, logs := c.logs ++ [accessLog extra c],
                  trace := c.trace ++ [.leave "logging"] }) := by
  simp [Next, handlerLoop, middleware, freshContext, Logger, Recovery, CustomRecovery, CORS_eq,
     hm, abortIndex, handlerLoop_done, Context.log, accessLog]
  simp [handlerContext] at hidx
  simp [hidx, handlerContext, handlerLoop_done]
/-- The log entry the recovery callback writes. -/
theorem recoveryHandle_eq (c : Context) (v : FaultValue) (stack : String) :
    recoveryHandle c v stack =
      { c.JSON 500 recoveryEnvelope with
        logs := c.logs ++
          [{ level := "error", msg := "Panic recovered",
             fields := [ ("panic", .fault v), ("stack", .str stack),
                         ("method", .str c.request.Method),
                         ("path", .str c.request.Path),
                         ("client_ip", .str c.request.ClientIP),
                         ("user_agent", .str c.request.UserAgent) ] }] } := by
  by_cases hs : c.status ≠ 500 <;> cases hw : c.written <;>
    simp [recoveryHandle, Context.log, Context.JSON, Context.WriteHeaderNow, Context.Status,
      bodyAllowedForStatus, hs, hw]

theorem Recovery_eq (next : Context → Outcome) (c c1 : Context) (p : Panic)
    (h : next c = .panicked c1 p) :
    Recovery next c =
      if p.value.brokenPipe then .returned ((c1.Error p.value).Abort)
      else .returned (recoveryHandle c1 p.value p.stack) := by
  simp only [Recovery, CustomRecovery, h]

theorem run_leaf_panics (extra : Context → List (String × LogValue))
    (f : Context → Context) (p : Panic)
    (fuel : Nat) (req : Request) (hm : req.Method ≠ "OPTIONS")
    (hidx : (f (handlerContext req)).index = 3) :
    Next (middleware extra ++ [("handler", fun _ c => .panicked (f c) p)]) (fuel + 5)
        (freshContext req) =
      .returned
        (let c0 : Context :=
            if p.value.brokenPipe then ((f (handlerContext req)).Error p.value).Abort
            else recoveryHandle (f (handlerContext req)) p.value p.stack
         let c : Context := { c0 with
            index := c0.index + 1, trace := c0.trace ++ [.leave "recovery"] }
         { c with index := c.index + 1, logs := c.logs ++ [accessLog extra c],
                  trace := c.trace ++ [.leave "logging"] }) := by
  have hi : (recoveryHandle (f (handlerContext req)) p.value p.stack).index = 3 := by
    rw [recoveryHandle_eq]
    exact (JSON_proj _ _ _).1.trans hidx
  by_cases hb : p.value.brokenPipe = true
  · simp [Next, handlerLoop, middleware, freshContext, Logger, Recovery, CustomRecovery,
      CORS_eq, hm, abortIndex, handlerLoop_done, Context.log, accessLog, hb,
      Context.Error, Context.Abort]
    simp [handlerContext]
  · simp only [Bool.not_eq_true] at hb
    simp [Next, handlerLoop, middleware, freshContext, Logger, Recovery, CustomRecovery,
      CORS_eq, hm, abortIndex, handlerLoop_done, Context.log, accessLog, hb]
    simp [handlerContext] at hi
    simp [hi, handlerContext, handlerLoop_done]
theorem getAllowedOrigin_mem (o : String) : getAllowedOrigin o ∈ allowedOrigins := by
  rw [getAllowedOrigin_eq]
  split_ifs with h
  · exact h
  · simp [allowedOrigins]

theorem getAllowedOrigin_ne_empty (o : String) : getAllowedOrigin o ≠ "" := by
  have h := getAllowedOrigin_mem o
  intro he
  rw [he] at h
  revert h
  decide

theorem corsHeaders_origin (o : String) (hs : List (String × String)) :
    (corsHeaders o hs).lookup "Access-Control-Allow-Origin" = some (getAllowedOrigin o) := by
  unfold corsHeaders
  rw [lookup_setHeader_other _ _ _ _ (by decide) (by decide),
    lookup_setHeader_other _ _ _ _ (by decide) (by decide),
    lookup_setHeader_other _ _ _ _ (by decide) (by decide),
    lookup_setHeader_same _ _ _ (getAllowedOrigin_ne_empty o)]

theorem corsHeaders_credentials (o : String) (hs : List (String × String)) :
    (corsHeaders o hs).lookup "Access-Control-Allow-Credentials" = some "true" := by
  unfold corsHeaders
  rw [lookup_setHeader_other _ _ _ _ (by decide) (by decide),
    lookup_setHeader_other _ _ _ _ (by decide) (by decide),
    lookup_setHeader_same _ _ _ (by decide)]

theorem corsHeaders_headers (o : String) (hs : List (String × String)) :
    (corsHeaders o hs).lookup "Access-Control-Allow-Headers" =
      some "Content-Type, Content-Length, Accept-Encoding, X-CSRF-Token, Authorization, accept, origin, Cache-Control, X-Requested-With" := by
  unfold corsHeaders
  rw [lookup_setHeader_other _ _ _ _ (by decide) (by decide),
    lookup_setHeader_same _ _ _ (by decide)]

theorem corsHeaders_methods (o : String) (hs : List (String × String)) :
    (corsHeaders o hs).lookup "Access-Control-Allow-Methods" =
      some "POST, OPTIONS, GET, PUT, DELETE, PATCH" := by
  unfold corsHeaders
  rw [lookup_setHeader_same _ _ _ (by decide)]

theorem mainRouter_handlers (extra : Context → List (String × LogValue)) :
    (mainRouter extra).group.Handlers = middleware extra := rfl

theorem corsHeaders_contentType (o : String) (hs : List (String × String)) :
    (corsHeaders o hs).lookup "Content-Type" = hs.lookup "Content-Type" := by
  unfold corsHeaders
  rw [lookup_setHeader_other _ _ _ _ (by decide) (by decide),
    lookup_setHeader_other _ _ _ _ (by decide) (by decide),
    lookup_setHeader_other _ _ _ _ (by decide) (by decide),
    lookup_setHeader_other _ _ _ _ (by decide) (getAllowedOrigin_ne_empty o)]

theorem run_stub_returns (extra : Context → List (String × LogValue))
    (effects : List ResponseEvent)
    (fuel : Nat) (req : Request) (hm : req.Method ≠ "OPTIONS") :
    ∃ c : Context,
      Next (middleware extra ++ [("handler", stubHandler effects none)]) (fuel + 5)
        (freshContext req) = .returned c ∧
      c.trace = servedTrace ∧ c.writes = effects ∧
      c.respHeader = corsHeaders (req.headerGet "Origin") [] := by
  have hp := foldl_send_proj effects (handlerContext req)
  refine ⟨_, run_leaf_returns extra (fun c => effects.foldl Context.send c) fuel req hm
    hp.2.1, ?_, ?_, ?_⟩
  · dsimp only
    rw [hp.2.2.2.1]
    rfl
  · dsimp only
    rw [hp.1]
    rfl
  · dsimp only
    rw [hp.2.2.1]
    rfl

theorem run_stub_panics (extra : Context → List (String × LogValue))
    (effects : List ResponseEvent) (p : Panic)
    (fuel : Nat) (req : Request) (hm : req.Method ≠ "OPTIONS") :
    ∃ c : Context,
      Next (middleware extra ++ [("handler", stubHandler effects (some p))]) (fuel + 5)
        (freshContext req) = .returned c ∧
      c.trace = recoveredTrace ∧
      c.writes = effects ++
        (if p.value.brokenPipe then [] else [.json 500 recoveryEnvelope]) ∧
      (p.value.brokenPipe = false →
        Outcome.clientView (.returned c) =
          Outcome.clientView (.returned
            ((effects.foldl Context.send (handlerContext req)).JSON 500 recoveryEnvelope))) := by
  have hp := foldl_send_proj effects (handlerContext req)
  refine ⟨_, run_leaf_panics extra (fun c => effects.foldl Context.send c) p fuel req hm
    hp.2.1, ?_, ?_, ?_⟩
  · by_cases hb : p.value.brokenPipe = true
    · simp only [hb, if_true, Context.Error, Context.Abort]
      rw [hp.2.2.2.1]
      rfl
    · simp only [Bool.not_eq_true] at hb
      simp only [hb, Bool.false_eq_true, if_false, recoveryHandle_eq]
      rw [(JSON_proj _ _ _).2.1, hp.2.2.2.1]
      rfl
  · by_cases hb : p.value.brokenPipe = true
    · simp only [hb, if_true, Context.Error, Context.Abort]
      rw [hp.1, List.append_nil]
      rfl
    · simp only [Bool.not_eq_true] at hb
      simp only [hb, Bool.false_eq_true, if_false, recoveryHandle_eq]
      rw [JSON_writes _ 500 _ (by decide), hp.1]
      rfl
  · intro hb
    simp only [hb, Bool.false_eq_true, if_false, recoveryHandle_eq, Outcome.clientView]

theorem mainRouter_routes (extra : Context → List (String × LogValue)) :
    (mainRouter extra).routes =
      [ { Method := "GET", Path := "/health",
          Handlers := middleware extra ++
            [("handler", fun _ c => .returned (c.JSON 200 healthEnvelope))] },
        { Method := "GET", Path := "/api/v1/ping",
          Handlers := middleware extra ++
            [("handler", fun _ c => .returned (c.JSON 200 pingEnvelope))] } ] := rfl

theorem run_json_returns (extra : Context → List (String × LogValue)) (obj : APIResponse)
    (fuel : Nat) (req : Request) (hm : req.Method ≠ "OPTIONS") :
    ∃ c : Context,
      Next (middleware extra ++ [("handler", fun _ c => .returned (c.JSON 200 obj))])
        (fuel + 5) (freshContext req) = .returned c ∧
      c.trace = servedTrace ∧ c.writes = [.json 200 obj] ∧ c.status = 200 := by
  refine ⟨_, run_leaf_returns extra (fun c => c.JSON 200 obj) fuel req hm
    (JSON_proj _ _ _).1, ?_, ?_, ?_⟩
  · dsimp only
    rw [(JSON_proj _ _ _).2.1]
    rfl
  · dsimp only
    rw [JSON_writes _ 200 _ (by decide)]
    rfl
  · dsimp only
    rw [(JSON_proj _ _ _).2.2.2.2.2.2.2]
    rfl

theorem run_route (extra : Context → List (String × LogValue)) (fuel : Nat) (req : Request)
    (r : RouteInfo) (hr : r ∈ (mainRouter extra).routes) :
    ∃ (c : Context) (obj : APIResponse),
      Next r.Handlers (fuel + 5) (freshContext req) = .returned c ∧
      (obj = healthEnvelope ∨ obj = pingEnvelope) ∧
      c.writes = (if req.Method = "OPTIONS" then [.headerOnly 204] else [.json 200 obj]) ∧
      c.trace = (if req.Method = "OPTIONS" then shortTrace else servedTrace) := by
  rw [mainRouter_routes] at hr
  by_cases hm : req.Method = "OPTIONS"
  · rcases List.mem_cons.1 hr with h1 | h2
    · subst h1
      exact ⟨_, healthEnvelope, run_options extra _ fuel req hm, Or.inl rfl,
        by rw [if_pos hm]; rfl, by rw [if_pos hm]; rfl⟩
    · rcases List.mem_cons.1 h2 with h1 | h3
      · subst h1
        exact ⟨_, pingEnvelope, run_options extra _ fuel req hm, Or.inr rfl,
          by rw [if_pos hm]; rfl, by rw [if_pos hm]; rfl⟩
      · cases h3
  · rcases List.mem_cons.1 hr with h1 | h2
    · subst h1
      obtain ⟨c, hc, ht, hw, _⟩ := run_json_returns extra healthEnvelope fuel req hm
      exact ⟨c, healthEnvelope, hc, Or.inl rfl, by rw [if_neg hm]; exact hw,
        by rw [if_neg hm]; exact ht⟩
    · rcases List.mem_cons.1 h2 with h1 | h3
      · subst h1
        obtain ⟨c, hc, ht, hw, _⟩ := run_json_returns extra pingEnvelope fuel req hm
        exact ⟨c, pingEnvelope, hc, Or.inr rfl, by rw [if_neg hm]; exact hw,
          by rw [if_neg hm]; exact ht⟩
      · cases h3

/-- C3: the `Access-Control-Allow-Origin` header `CORS` sets is `getAllowedOrigin` of the
request `Origin` header (empty when absent), which is the origin itself when it is one of
the four allow-listed strings and `http://localhost:3000` otherwise; this holds for the
context `CORS` passes on or returns and for the response of a route chain and of the
no-route chain. -/
theorem cors_origin_selection (next : Context → Outcome) (c : Context) (o : String) :
    getAllowedOrigin o =
      (if o ∈ ["http://localhost:3000", "http://localhost:3001",
               "http://127.0.0.1:3000", "http://127.0.0.1:3001"]
       then o else "http://localhost:3000") ∧
    c.request.headerGet "Origin" = (c.request.Header.lookup "Origin").getD "" ∧
    (∃ c1 : Context,
      c1.respHeaderGet "Access-Control-Allow-Origin" =
        some (getAllowedOrigin (c.request.headerGet "Origin")) ∧
      CORS next c =
        if c.request.Method = "OPTIONS" then .returned (c1.AbortWithStatus 204)
        else next c1) ∧
    (∀ (extra : Context → List (String × LogValue)) (effects : List ResponseEvent)
        (fuel : Nat),
      ∃ c2 : Context,
        Next ((mainRouter extra).group.Handlers ++ [("handler", stubHandler effects none)])
          (fuel + 5) (freshContext c.request) = .returned c2 ∧
        c2.respHeaderGet "Access-Control-Allow-Origin" =
          some (getAllowedOrigin (c.request.headerGet "Origin"))) ∧
    (∀ (extra : Context → List (String × LogValue)) (fuel : Nat),
      ∃ c3 : Context,
        Next (mainRouter extra).allNoRoute (fuel + 5) (freshContext c.request) =
          .returned c3 ∧
        c3.respHeaderGet "Access-Control-Allow-Origin" =
          some (getAllowedOrigin (c.request.headerGet "Origin"))) := by
  refine ⟨getAllowedOrigin_eq o, ?_, ?_, ?_, ?_⟩
  · unfold Request.headerGet
    cases c.request.Header.lookup "Origin" <;> rfl
  · refine ⟨{ c with respHeader := corsHeaders (c.request.headerGet "Origin") c.respHeader },
      corsHeaders_origin _ _, ?_⟩
    exact CORS_eq next c
  · intro extra effects fuel
    rw [mainRouter_handlers]
    by_cases hm : c.request.Method = "OPTIONS"
    · rw [run_options extra _ fuel c.request hm]
      exact ⟨_, rfl, corsHeaders_origin _ _⟩
    · obtain ⟨c2, hc, _, _, hh⟩ := run_stub_returns extra effects fuel c.request hm
      refine ⟨c2, hc, ?_⟩
      unfold Context.respHeaderGet
      rw [hh]
      exact corsHeaders_origin _ _
  · intro extra fuel
    obtain ⟨c3, hc, _, _, hh⟩ := run_noRoute extra (fuel + 1) c.request
    refine ⟨c3, hc, ?_⟩
    unfold Context.respHeaderGet
    rw [hh]
    exact corsHeaders_origin _ _

/-- C10: `getAllowedOrigin` always answers with a member of the four-entry allow-list,
never `*` (the guard before the final `return "*"` always holds, so that return is only
reached for an empty list) and is idempotent; the origin header `CORS` sets next to
`Access-Control-Allow-Credentials: true` is therefore always allow-listed. -/
theorem getAllowedOrigin_never_reflects (o : String) :
    getAllowedOrigin o ∈ allowedOrigins ∧
    allowedOrigins = ["http://localhost:3000", "http://localhost:3001",
                      "http://127.0.0.1:3000", "http://127.0.0.1:3001"] ∧
    getAllowedOrigin o ≠ "*" ∧
    0 < allowedOrigins.length ∧
    selectOrigin [] o = "*" ∧
    getAllowedOrigin (getAllowedOrigin o) = getAllowedOrigin o ∧
    (∀ (next : Context → Outcome) (c : Context), ∃ (c1 : Context) (v : String),
      v ∈ allowedOrigins ∧
      c1.respHeaderGet "Access-Control-Allow-Origin" = some v ∧
      c1.respHeaderGet "Access-Control-Allow-Credentials" = some "true" ∧
      CORS next c =
        if c.request.Method = "OPTIONS" then .returned (c1.AbortWithStatus 204)
        else next c1) := by
  refine ⟨getAllowedOrigin_mem o, rfl, ?_, by decide, rfl, ?_, ?_⟩
  · have h := getAllowedOrigin_mem o
    intro he
    rw [he] at h
    revert h
    decide
  · have h := getAllowedOrigin_mem o
    rw [getAllowedOrigin_eq (getAllowedOrigin o), if_pos h]
  · intro next c
    refine ⟨{ c with respHeader := corsHeaders (c.request.headerGet "Origin") c.respHeader },
      getAllowedOrigin (c.request.headerGet "Origin"), getAllowedOrigin_mem _,
      corsHeaders_origin _ _, corsHeaders_credentials _ _, ?_⟩
    exact CORS_eq next c

/-- C9: with `DB_PASSWORD` set to the empty string `getEnvOrDefault` returns the default
`password`, not the value that was set, although the variable is set. -/
theorem getEnvOrDefault_blank_value_replaced :
    blankPasswordEnv "DB_PASSWORD" = some "" ∧
    getEnvOrDefault blankPasswordEnv "DB_PASSWORD" "password" = "password" ∧
    ¬ (getEnvOrDefault blankPasswordEnv "DB_PASSWORD" "password" = "") := by
  decide

/-- What `getEnvOrDefault` computes: the value of the variable when it is set to a
non-empty string, the default when the variable is unset or set to the empty string. -/
theorem getEnvOrDefault_spec (env : Env) (k d : String) :
    (∀ v : String, env k = some v → v ≠ "" → getEnvOrDefault env k d = v) ∧
    (env k = none ∨ env k = some "" → getEnvOrDefault env k d = d) ∧
    (getEnvOrDefault env k d = d ↔ env k = none ∨ env k = some "" ∨ env k = some d) := by
  unfold getEnvOrDefault Getenv
  refine ⟨?_, ?_, ?_⟩
  · intro v hv hne
    simp [hv, hne]
  · rintro (h | h) <;> simp [h]
  · cases hk : env k with
    | none => simp
    | some v =>
      by_cases hv : v = ""
      · simp [hv]
      · simp [hv]

/-- C1 (as stated) fails: for a fault that reports a broken client connection `Recovery`
writes no response at all (no status, no envelope), so the response differs from the one
for another fault value; and when the handler had already written a 200 response before
the fault, the status of the response stays 200. -/
theorem recovery_skips_broken_connection :
    (Recovery (stubHandler [] (some { value := .brokenConnection "write: broken pipe" })
        (fun c => .returned c)) (freshContext healthRequest)).clientView =
      some (200, false, [], []) ∧
    (Recovery (stubHandler [] (some { value := .text "boom" })
        (fun c => .returned c)) (freshContext healthRequest)).clientView =
      some (500, true, [("Content-Type", "application/json; charset=utf-8")],
            [.json 500 recoveryEnvelope]) ∧
    ¬ ((Recovery (stubHandler [] (some { value := .brokenConnection "write: broken pipe" })
          (fun c => .returned c)) (freshContext healthRequest)).clientView =
       (Recovery (stubHandler [] (some { value := .text "boom" })
          (fun c => .returned c)) (freshContext healthRequest)).clientView) ∧
    (Recovery (stubHandler [.text 200 "half a page"] (some { value := .text "boom" })
        (fun c => .returned c)) (freshContext healthRequest)).clientView =
      some (200, true, [("Content-Type", "application/json; charset=utf-8")],
            [.text 200 "half a page", .json 500 recoveryEnvelope]) := by
  refine ⟨rfl, rfl, ?_, rfl⟩
  intro h
  cases h

/-- C1 (amended): when the chain below `Recovery` panics with a fault value that does not
report a dead connection, `Recovery` returns normally having sent, with `c.JSON(500, ..)`,
the envelope success=false, no data, error code `INTERNAL_ERROR`, the generic message and
no details; the status of the response is 500 when nothing had been written before the
fault, and the status already sent otherwise.  Status, headers and writes are the same
for any two such fault values (only the log differs), also for a panicking handler behind
the registered middleware.  On a fault that reports a dead connection the callback is
skipped: the error is attached, the chain aborted and nothing written. -/
theorem recovery_masks_fault (next : Context → Outcome) (c c1 : Context) (p : Panic)
    (h : next c = .panicked c1 p) :
    (p.value.brokenPipe = false →
      ∃ c2 : Context, Recovery next c = .returned c2 ∧
        c2.writes = c1.writes ++ [.json 500 recoveryEnvelope] ∧
        c2.written = true ∧
        (c1.written = false → c2.status = 500) ∧
        (c1.written = true → c2.status = c1.status) ∧
        c2.respHeader = writeContentType c1.respHeader "application/json; charset=utf-8" ∧
        c2.logs = c1.logs ++
          [{ level := "error", msg := "Panic recovered",
             fields := [ ("panic", .fault p.value), ("stack", .str p.stack),
                         ("method", .str c1.request.Method),
                         ("path", .str c1.request.Path),
                         ("client_ip", .str c1.request.ClientIP),
                         ("user_agent", .str c1.request.UserAgent) ] }]) ∧
    (p.value.brokenPipe = true →
      ∃ c2 : Context, Recovery next c = .returned c2 ∧
        c2.writes = c1.writes ∧ c2.written = c1.written ∧ c2.status = c1.status ∧
        c2.respHeader = c1.respHeader ∧
        c2.errors = c1.errors ++ [p.value] ∧ c2.IsAborted = true) ∧
    (recoveryEnvelope.Success = false ∧ recoveryEnvelope.Data = none ∧
      recoveryEnvelope.Error =
        some { Code := "INTERNAL_ERROR", Message := "An unexpected error occurred",
               Details := "" } ∧
      recoveryEnvelope.Meta = none) ∧
    (∀ (next2 : Context → Outcome) (p2 : Panic), next2 c = .panicked c1 p2 →
      p.value.brokenPipe = false → p2.value.brokenPipe = false →
      (Recovery next2 c).clientView = (Recovery next c).clientView) ∧
    (∀ (extra : Context → List (String × LogValue)) (effects : List ResponseEvent)
        (p1 p2 : Panic) (fuel : Nat) (req : Request), req.Method ≠ "OPTIONS" →
      p1.value.brokenPipe = false → p2.value.brokenPipe = false →
      (Next ((mainRouter extra).group.Handlers ++
          [("handler", stubHandler effects (some p1))]) (fuel + 5)
          (freshContext req)).clientView =
      (Next ((mainRouter extra).group.Handlers ++
          [("handler", stubHandler effects (some p2))]) (fuel + 5)
          (freshContext req)).clientView) ∧
    (∀ (extra : Context → List (String × LogValue)) (p1 : Panic) (fuel : Nat)
        (req : Request), req.Method ≠ "OPTIONS" → p1.value.brokenPipe = false →
      (Next ((mainRouter extra).group.Handlers ++
          [("handler", stubHandler [] (some p1))]) (fuel + 5)
          (freshContext req)).clientView =
        some (500, true,
              corsHeaders (req.headerGet "Origin") [] ++
                [("Content-Type", "application/json; charset=utf-8")],
              [.json 500 recoveryEnvelope])) := by
  refine ⟨?_, ?_, ⟨rfl, rfl, rfl, rfl⟩, ?_, ?_, ?_⟩
  · intro hb
    refine ⟨recoveryHandle c1 p.value p.stack,
      by rw [Recovery_eq next c c1 p h, hb]; rfl, ?_, ?_, ?_, ?_, ?_, ?_⟩
    · rw [recoveryHandle_eq]
      exact JSON_writes _ 500 _ (by decide)
    · rw [recoveryHandle_eq]
      exact (JSON_proj c1 500 recoveryEnvelope).2.2.2.2.2.1
    · intro hw
      rw [recoveryHandle_eq]
      show (c1.JSON 500 recoveryEnvelope).status = 500
      rw [(JSON_proj c1 500 recoveryEnvelope).2.2.2.2.2.2.2]
      by_cases hs : c1.status = 500 <;> simp [Context.Status, hs, hw]
    · intro hw
      rw [recoveryHandle_eq]
      show (c1.JSON 500 recoveryEnvelope).status = c1.status
      rw [(JSON_proj c1 500 recoveryEnvelope).2.2.2.2.2.2.2]
      by_cases hs : c1.status = 500 <;> simp [Context.Status, hs, hw]
    · rw [recoveryHandle_eq]
      exact (JSON_proj c1 500 recoveryEnvelope).2.2.2.2.2.2.1
    · rw [recoveryHandle_eq]
  · intro hb
    refine ⟨(c1.Error p.value).Abort, by rw [Recovery_eq next c c1 p h, hb]; rfl,
      rfl, rfl, rfl, rfl, rfl, ?_⟩
    simp [Context.IsAborted, Context.Abort, Context.Error]
  · intro next2 p2 h2 hb hb2
    rw [Recovery_eq next c c1 p h, Recovery_eq next2 c c1 p2 h2, hb, hb2]
    simp only [Bool.false_eq_true, if_false, recoveryHandle_eq, Outcome.clientView]
  · intro extra effects p1 p2 fuel req hm hb1 hb2
    rw [mainRouter_handlers]
    obtain ⟨d1, hd1, _, _, hv1⟩ := run_stub_panics extra effects p1 fuel req hm
    obtain ⟨d2, hd2, _, _, hv2⟩ := run_stub_panics extra effects p2 fuel req hm
    rw [hd1, hd2, hv1 hb1, hv2 hb2]
  · intro extra p1 fuel req hm hb1
    rw [mainRouter_handlers]
    obtain ⟨d1, hd1, _, _, hv1⟩ := run_stub_panics extra [] p1 fuel req hm
    rw [hd1, hv1 hb1]
    have hct : (corsHeaders (req.headerGet "Origin") []).lookup "Content-Type" = none := by
      rw [corsHeaders_contentType]
      rfl
    simp [Outcome.clientView, Context.JSON, Context.Status, Context.WriteHeaderNow,
      handlerContext, writeContentType, hct, bodyAllowedForStatus]

/-- C1 witness: a handler that panics with a text and one that panics with a number,
behind `Recovery` alone and behind the registered middleware, give the client the same
500 response; a handler that panics with a broken-pipe error gets no response. -/
theorem recovery_masks_fault_witness :
    (∃ c2 : Context,
      Recovery (stubHandler [] (some { value := .text "db password is hunter2" })
        (fun c => .returned c)) (freshContext healthRequest) = .returned c2 ∧
      c2.writes = [] ++ [.json 500 recoveryEnvelope] ∧ c2.status = 500) ∧
    (Recovery (stubHandler [] (some { value := .code 7 }) (fun c => .returned c))
        (freshContext healthRequest)).clientView =
      (Recovery (stubHandler [] (some { value := .text "db password is hunter2" })
        (fun c => .returned c)) (freshContext healthRequest)).clientView ∧
    (Next ((mainRouter noExtra).group.Handlers ++
        [("handler", stubHandler [] (some { value := .text "db password is hunter2" }))])
        (0 + 5) (freshContext healthRequest)).clientView =
      (Next ((mainRouter noExtra).group.Handlers ++
        [("handler", stubHandler [] (some { value := .code 7 }))])
        (0 + 5) (freshContext healthRequest)).clientView ∧
    (Next ((mainRouter noExtra).group.Handlers ++
        [("handler", stubHandler [] (some { value := .code 7 }))])
        (0 + 5) (freshContext healthRequest)).clientView =
      some (500, true,
            corsHeaders (healthRequest.headerGet "Origin") [] ++
              [("Content-Type", "application/json; charset=utf-8")],
            [.json 500 recoveryEnvelope]) ∧
    (∃ c2 : Context,
      Recovery (stubHandler [] (some { value := .brokenConnection "write: broken pipe" })
        (fun c => .returned c)) (freshContext healthRequest) = .returned c2 ∧
      c2.writes = [] ∧ c2.written = false) :=
  have h := recovery_masks_fault
    (stubHandler [] (some { value := .text "db password is hunter2" }) (fun c => .returned c))
    (freshContext healthRequest) (freshContext healthRequest)
    { value := .text "db password is hunter2" } rfl
  have hb := recovery_masks_fault
    (stubHandler [] (some { value := .brokenConnection "write: broken pipe" })
      (fun c => .returned c))
    (freshContext healthRequest) (freshContext healthRequest)
    { value := .brokenConnection "write: broken pipe" } rfl
  ⟨(h.1 rfl).elim fun c2 hc => ⟨c2, hc.1, hc.2.1, hc.2.2.2.1 rfl⟩,
   h.2.2.2.1 (stubHandler [] (some { value := .code 7 }) (fun c => .returned c))
    { value := .code 7 } rfl rfl rfl,
   h.2.2.2.2.1 noExtra [] { value := .text "db password is hunter2" } { value := .code 7 } 0
    healthRequest (by decide) rfl rfl,
   h.2.2.2.2.2 noExtra { value := .code 7 } 0 healthRequest (by decide) rfl,
   (hb.2.1 rfl).elim fun c2 hc => ⟨c2, hc.1, hc.2.1, hc.2.2.1⟩⟩
/-- C2: for a request whose method is `OPTIONS`, `CORS` returns without calling what is
downstream: it issues one header-only write with status 204 (no body), sets the four
CORS headers and aborts; behind the registered middleware no handler is entered, whatever
the handler is, and the response is that single 204 write, on a route chain as on the
no-route chain. -/
theorem cors_preflight_short_circuits (req : Request) (hm : req.Method = "OPTIONS") :
    (∀ (next : Context → Outcome) (c : Context), c.request = req →
      ∃ c1 : Context, CORS next c = .returned c1 ∧
        c1.writes = c.writes ++ [.headerOnly 204] ∧
        c1.IsAborted = true ∧
        c1.respHeaderGet "Access-Control-Allow-Origin" =
          some (getAllowedOrigin (req.headerGet "Origin")) ∧
        c1.respHeaderGet "Access-Control-Allow-Credentials" = some "true" ∧
        c1.respHeaderGet "Access-Control-Allow-Headers" =
          some "Content-Type, Content-Length, Accept-Encoding, X-CSRF-Token, Authorization, accept, origin, Cache-Control, X-Requested-With" ∧
        c1.respHeaderGet "Access-Control-Allow-Methods" =
          some "POST, OPTIONS, GET, PUT, DELETE, PATCH" ∧
        c1.trace = c.trace ∧ c1.logs = c.logs ∧
        (∀ next2 : Context → Outcome, CORS next2 c = .returned c1)) ∧
    (∀ (extra : Context → List (String × LogValue)) (h : HandlerFunc) (fuel : Nat),
      ∃ c2 : Context,
        Next ((mainRouter extra).group.Handlers ++ [("handler", h)]) (fuel + 5)
          (freshContext req) = .returned c2 ∧
        c2.writes = [.headerOnly 204] ∧
        (∀ w ∈ c2.writes, w.status = 204 ∧ w.hasBody = false) ∧
        ProbeEvent.enter "handler" ∉ c2.trace ∧
        c2.trace = shortTrace ∧
        c2.respHeader = corsHeaders (req.headerGet "Origin") [] ∧
        (∀ h2 : HandlerFunc,
          Next ((mainRouter extra).group.Handlers ++ [("handler", h2)]) (fuel + 5)
            (freshContext req) = .returned c2)) ∧
    (∀ (extra : Context → List (String × LogValue)) (fuel : Nat),
      ∃ c3 : Context,
        Next (mainRouter extra).allNoRoute (fuel + 5) (freshContext req) = .returned c3 ∧
        c3.writes = [.headerOnly 204] ∧
        c3.trace = shortTrace ∧
        c3.respHeader = corsHeaders (req.headerGet "Origin") []) := by
  refine ⟨?_, ?_, ?_⟩
  · intro next c hc
    subst hc
    have key : ∀ n : Context → Outcome, CORS n c = .returned
        (Context.AbortWithStatus
          { c with respHeader := corsHeaders (c.request.headerGet "Origin") c.respHeader }
          204) := by
      intro n
      rw [CORS_eq, if_pos hm]
    obtain ⟨p1, p2, p3, p4, p5, _, _⟩ := AbortWithStatus_proj
      { c with respHeader := corsHeaders (c.request.headerGet "Origin") c.respHeader } 204
    refine ⟨_, key next, p1, ?_, ?_, ?_, ?_, ?_, p4, p5, key⟩
    · unfold Context.IsAborted
      rw [p2]
      decide
    · unfold Context.respHeaderGet
      rw [p3]
      exact corsHeaders_origin _ _
    · unfold Context.respHeaderGet
      rw [p3]
      exact corsHeaders_credentials _ _
    · unfold Context.respHeaderGet
      rw [p3]
      exact corsHeaders_headers _ _
    · unfold Context.respHeaderGet
      rw [p3]
      exact corsHeaders_methods _ _
  · intro extra h fuel
    rw [mainRouter_handlers]
    refine ⟨_, run_options extra h fuel req hm, rfl, ?_, ?_, rfl, rfl, ?_⟩
    · intro w hw
      simp [preflightContext] at hw
      subst hw
      exact ⟨rfl, rfl⟩
    · simp [preflightContext]
    · intro h2
      exact run_options extra h2 fuel req hm
  · intro extra fuel
    obtain ⟨c3, hc, hw, ht, hh⟩ := run_noRoute extra (fuel + 1) req
    rw [if_pos hm] at hw
    exact ⟨c3, hc, hw, ht, hh⟩

/-- C2 witness: the sample preflight request, on `CORS` alone with a downstream that
would panic, and on the registered middleware with a panicking handler behind it. -/
theorem cors_preflight_short_circuits_witness :
    (∃ c1 : Context,
      CORS (fun c => .panicked c { value := .code 1 }) (freshContext preflightRequest) =
        .returned c1 ∧
      c1.writes = [] ++ [.headerOnly 204] ∧ c1.IsAborted = true ∧
      c1.respHeaderGet "Access-Control-Allow-Origin" =
        some (getAllowedOrigin (preflightRequest.headerGet "Origin"))) ∧
    (∃ c2 : Context,
      Next ((mainRouter noExtra).group.Handlers ++
          [("handler", stubHandler [.text 200 "reached"] (some { value := .code 1 }))])
        (0 + 5) (freshContext preflightRequest) = .returned c2 ∧
      c2.writes = [.headerOnly 204] ∧
      ProbeEvent.enter "handler" ∉ c2.trace) :=
  ⟨((cors_preflight_short_circuits preflightRequest rfl).1
      (fun c => .panicked c { value := .code 1 }) (freshContext preflightRequest) rfl).elim
      fun c1 hc => ⟨c1, hc.1, hc.2.1, hc.2.2.1, hc.2.2.2.1⟩,
   ((cors_preflight_short_circuits preflightRequest rfl).2.1 noExtra
      (stubHandler [.text 200 "reached"] (some { value := .code 1 })) 0).elim
      fun c2 hc => ⟨c2, hc.1, hc.2.1, hc.2.2.2.1⟩⟩

/-- C4: the middleware `main` registers is exactly logging, recovery, CORS, in that
order, and every route chain is that middleware followed by the route handler.  For
every request the probe sees logging entered first, then recovery, then CORS, then (only
when the request is not a preflight) the handler; CORS and the handler are entered and
left between the entry into and the return from recovery, and a handler panic is caught
inside that scope (and answered with the 500 response unless the fault reports a dead
connection). -/
theorem interceptor_order (extra : Context → List (String × LogValue)) (fuel : Nat)
    (req : Request) :
    (mainRouter extra).group.Handlers =
      [("logging", Logger extra), ("recovery", Recovery), ("cors", CORS)] ∧
    (mainRouter extra).routes.map (fun r => (r.Method, r.Path, r.Handlers.map Prod.fst)) =
      [("GET", "/health", ["logging", "recovery", "cors", "handler"]),
       ("GET", "/api/v1/ping", ["logging", "recovery", "cors", "handler"])] ∧
    (mainRouter extra).routes.map (fun r => r.Handlers.take 3) =
      [(mainRouter extra).group.Handlers, (mainRouter extra).group.Handlers] ∧
    (mainRouter extra).allNoRoute = (mainRouter extra).group.Handlers ∧
    (∀ r ∈ (mainRouter extra).routes, ∃ c : Context,
      Next r.Handlers (fuel + 5) (freshContext req) = .returned c ∧
      c.trace = (if req.Method = "OPTIONS" then shortTrace else servedTrace)) ∧
    (∃ c : Context,
      Next (mainRouter extra).allNoRoute (fuel + 5) (freshContext req) = .returned c ∧
      c.trace = shortTrace) ∧
    (∀ effects : List ResponseEvent, req.Method ≠ "OPTIONS" → ∃ c : Context,
      Next ((mainRouter extra).group.Handlers ++ [("handler", stubHandler effects none)])
        (fuel + 5) (freshContext req) = .returned c ∧
      c.trace = servedTrace ∧ c.writes = effects) ∧
    (∀ (effects : List ResponseEvent) (p : Panic), req.Method ≠ "OPTIONS" → ∃ c : Context,
      Next ((mainRouter extra).group.Handlers ++ [("handler", stubHandler effects (some p))])
        (fuel + 5) (freshContext req) = .returned c ∧
      c.trace = recoveredTrace ∧
      c.writes = effects ++
        (if p.value.brokenPipe then [] else [.json 500 recoveryEnvelope])) ∧
    (∀ h : HandlerFunc, req.Method = "OPTIONS" → ∃ c : Context,
      Next ((mainRouter extra).group.Handlers ++ [("handler", h)])
        (fuel + 5) (freshContext req) = .returned c ∧
      c.trace = shortTrace) ∧
    servedTrace =
      [.enter "logging", .enter "recovery", .enter "cors", .enter "handler",
       .leave "handler", .leave "cors", .leave "recovery", .leave "logging"] ∧
    recoveredTrace =
      [.enter "logging", .enter "recovery", .enter "cors", .enter "handler",
       .leave "recovery", .leave "logging"] ∧
    shortTrace =
      [.enter "logging", .enter "recovery", .enter "cors",
       .leave "cors", .leave "recovery", .leave "logging"] := by
  refine ⟨rfl, rfl, rfl, rfl, ?_, ?_, ?_, ?_, ?_, rfl, rfl, rfl⟩
  · intro r hr
    obtain ⟨c, _, hc, _, _, ht⟩ := run_route extra fuel req r hr
    exact ⟨c, hc, ht⟩
  · obtain ⟨c, hc, _, ht, _⟩ := run_noRoute extra (fuel + 1) req
    exact ⟨c, hc, ht⟩
  · intro effects hm
    obtain ⟨c, hc, ht, hw, _⟩ := run_stub_returns extra effects fuel req hm
    exact ⟨c, hc, ht, hw⟩
  · intro effects p hm
    obtain ⟨c, hc, ht, hw, _⟩ := run_stub_panics extra effects p fuel req hm
    exact ⟨c, hc, ht, hw⟩
  · intro h hm
    exact ⟨_, run_options extra h fuel req hm, rfl⟩

/-- C4 witness: the `/health` route chain on the sample request, a returning and a
panicking handler behind the middleware, and the sample preflight request. -/
theorem interceptor_order_witness :
    (∃ c : Context,
      Next (middleware noExtra ++ [("handler", healthHandler)]) (0 + 5)
        (freshContext healthRequest) = .returned c ∧
      c.trace = (if healthRequest.Method = "OPTIONS" then shortTrace else servedTrace)) ∧
    (∃ c : Context,
      Next ((mainRouter noExtra).group.Handlers ++
          [("handler", stubHandler [.json 200 healthEnvelope] none)])
        (0 + 5) (freshContext healthRequest) = .returned c ∧
      c.trace = servedTrace ∧ c.writes = [.json 200 healthEnvelope]) ∧
    (∃ c : Context,
      Next ((mainRouter noExtra).group.Handlers ++
          [("handler", stubHandler [] (some { value := .text "boom" }))])
        (0 + 5) (freshContext healthRequest) = .returned c ∧
      c.trace = recoveredTrace ∧
      c.writes = [] ++
        (if (FaultValue.text "boom").brokenPipe then [] else [.json 500 recoveryEnvelope])) ∧
    (∃ c : Context,
      Next ((mainRouter noExtra).group.Handlers ++ [("handler", pingHandler)])
        (0 + 5) (freshContext preflightRequest) = .returned c ∧
      c.trace = shortTrace) :=
  ⟨(interceptor_order noExtra 0 healthRequest).2.2.2.2.1
      { Method := "GET", Path := "/health",
        Handlers := middleware noExtra ++ [("handler", healthHandler)] }
      (List.mem_cons_self _ _),
   (interceptor_order noExtra 0 healthRequest).2.2.2.2.2.2.1 [.json 200 healthEnvelope]
      (by decide),
   (interceptor_order noExtra 0 healthRequest).2.2.2.2.2.2.2.1 []
      { value := .text "boom" } (by decide),
   (interceptor_order noExtra 0 preflightRequest).2.2.2.2.2.2.2.2.1 pingHandler rfl⟩

/-- C5: every envelope the program sends has exactly one of data and error: the `/health`
and `/api/v1/ping` envelopes have success=true, data and no error, the recovery envelope
has success=false, an error and no data; for every request, every envelope written by a
registered route chain or by the no-route chain satisfies this, and `Recovery` keeps it
when it answers a fault. -/
theorem envelope_invariant (extra : Context → List (String × LogValue)) (fuel : Nat)
    (req : Request) :
    (healthEnvelope.Success = true ∧ healthEnvelope.Data ≠ none ∧
      healthEnvelope.Error = none) ∧
    (pingEnvelope.Success = true ∧ pingEnvelope.Data ≠ none ∧ pingEnvelope.Error = none) ∧
    (recoveryEnvelope.Success = false ∧ recoveryEnvelope.Error ≠ none ∧
      recoveryEnvelope.Data = none) ∧
    (∀ r : APIResponse, r.wellFormed = true ↔
      ((r.Success = true ∧ r.Data ≠ none ∧ r.Error = none) ∨
       (r.Success = false ∧ r.Error ≠ none ∧ r.Data = none))) ∧
    (∀ r ∈ (mainRouter extra).routes, ∃ c : Context,
      Next r.Handlers (fuel + 5) (freshContext req) = .returned c ∧
      (req.Method ≠ "OPTIONS" → ∃ obj : APIResponse, c.writes = [.json 200 obj]) ∧
      ∀ w ∈ c.writes, ∀ obj : APIResponse, w.envelope = some obj → obj.wellFormed = true) ∧
    (∃ c : Context,
      Next (mainRouter extra).allNoRoute (fuel + 5) (freshContext req) = .returned c ∧
      ∀ w ∈ c.writes, ∀ obj : APIResponse, w.envelope = some obj → obj.wellFormed = true) ∧
    (∀ (next : Context → Outcome) (c c1 : Context) (p : Panic),
      next c = .panicked c1 p →
      (∀ w ∈ c1.writes, ∀ obj : APIResponse, w.envelope = some obj → obj.wellFormed = true) →
      ∃ c2 : Context, Recovery next c = .returned c2 ∧
        ∀ w ∈ c2.writes, ∀ obj : APIResponse, w.envelope = some obj →
          obj.wellFormed = true) := by
  refine ⟨by decide, by decide, by decide, ?_, ?_, ?_, ?_⟩
  · intro r
    obtain ⟨s, d, e, m⟩ := r
    cases s <;> cases d <;> cases e <;> simp [APIResponse.wellFormed]
  · intro r hr
    obtain ⟨c, obj, hc, hobj, hw, _⟩ := run_route extra fuel req r hr
    refine ⟨c, hc, ?_, ?_⟩
    · intro hm
      exact ⟨obj, by rw [hw, if_neg hm]⟩
    · intro w hmem o ho
      rw [hw] at hmem
      by_cases hm : req.Method = "OPTIONS"
      · rw [if_pos hm] at hmem
        rw [List.mem_singleton.1 hmem] at ho
        cases ho
      · rw [if_neg hm] at hmem
        rw [List.mem_singleton.1 hmem] at ho
        cases ho
        rcases hobj with h | h <;> subst h <;> decide
  · obtain ⟨c, hc, hw, _⟩ := run_noRoute extra (fuel + 1) req
    refine ⟨c, hc, ?_⟩
    intro w hmem o ho
    rw [hw] at hmem
    by_cases hm : req.Method = "OPTIONS"
    · rw [if_pos hm] at hmem
      rw [List.mem_singleton.1 hmem] at ho
      cases ho
    · rw [if_neg hm] at hmem
      cases hmem
  · intro next c c1 p h hwf
    by_cases hb : p.value.brokenPipe = true
    · refine ⟨(c1.Error p.value).Abort, by rw [Recovery_eq next c c1 p h, if_pos hb], ?_⟩
      intro w hmem o ho
      exact hwf w hmem o ho
    · refine ⟨recoveryHandle c1 p.value p.stack,
        by rw [Recovery_eq next c c1 p h, if_neg hb], ?_⟩
      intro w hmem o ho
      rw [recoveryHandle_eq] at hmem
      have hw : (c1.JSON 500 recoveryEnvelope).writes =
          c1.writes ++ [.json 500 recoveryEnvelope] := JSON_writes _ 500 _ (by decide)
      have hmem2 : w ∈ c1.writes ++ [.json 500 recoveryEnvelope] := by
        rw [← hw]
        exact hmem
      rcases List.mem_append.1 hmem2 with h1 | h1
      · exact hwf w h1 o ho
      · rw [List.mem_singleton.1 h1] at ho
        cases ho
        decide

/-- C5 witness: the `/health` route on the sample request, and `Recovery` behind a
handler that panics after a well-formed write. -/
theorem envelope_invariant_witness :
    (∃ c : Context,
      Next (middleware noExtra ++ [("handler", healthHandler)]) (0 + 5)
        (freshContext healthRequest) = .returned c ∧
      (healthRequest.Method ≠ "OPTIONS" → ∃ obj : APIResponse, c.writes = [.json 200 obj]) ∧
      ∀ w ∈ c.writes, ∀ obj : APIResponse, w.envelope = some obj → obj.wellFormed = true) ∧
    (∃ c2 : Context,
      Recovery (stubHandler [.json 200 pingEnvelope] (some { value := .code 3 })
        (fun c => .returned c)) (freshContext healthRequest) = .returned c2 ∧
      ∀ w ∈ c2.writes, ∀ obj : APIResponse, w.envelope = some obj →
        obj.wellFormed = true) :=
  ⟨(envelope_invariant noExtra 0 healthRequest).2.2.2.2.1
      { Method := "GET", Path := "/health",
        Handlers := middleware noExtra ++ [("handler", healthHandler)] }
      (List.mem_cons_self _ _),
   (envelope_invariant noExtra 0 healthRequest).2.2.2.2.2.2
      (stubHandler [.json 200 pingEnvelope] (some { value := .code 3 })
        (fun c => .returned c))
      (freshContext healthRequest)
      ([ResponseEvent.json 200 pingEnvelope].foldl Context.send (freshContext healthRequest))
      { value := .code 3 } rfl
      (by
        intro w hw obj ho
        have hw2 : w ∈ [ResponseEvent.json 200 pingEnvelope] := hw
        rw [List.mem_singleton.1 hw2] at ho
        cases ho
        decide)⟩

theorem err_ne_none_of_ne_ok (r : PingOutcome) (h : r ≠ .ok) : ∃ e, r.err = some e := by
  cases r with
  | ok => exact absurd rfl h
  | failed msg => exact ⟨msg, rfl⟩
  | timedOut => exact ⟨_, rfl⟩

theorem err_none_iff_ok (r : PingOutcome) : r.err = none ↔ r = .ok := by
  cases r <;> simp [PingOutcome.err]

/-- C7: each constructor issues at most one probe, and exactly one once it gets as far
as probing.  When the first probe of its store fails or times out it returns no client
and an error, whatever later probes would answer; it returns a nil error only when
that probe succeeded, exactly one probe was issued, and a client is returned. -/
theorem constructors_fail_fast (env : Env) (w : Backend) :
    ((NewPostgresConnection env w).probes = [] ∨
      (NewPostgresConnection env w).probes = [{ store := .postgres, deadline := none }]) ∧
    ((∀ s, w.sqlOpen s = none) → (NewPostgresConnection env w).probes.length = 1) ∧
    (w.ping .postgres 0 ≠ .ok →
      (NewPostgresConnection env w).client = none ∧
      (NewPostgresConnection env w).err ≠ none) ∧
    ((NewPostgresConnection env w).err = none →
      w.ping .postgres 0 = .ok ∧ (NewPostgresConnection env w).probes.length = 1 ∧
      (NewPostgresConnection env w).client ≠ none) ∧
    ((NewPostgresConnection env w).client ≠ none → (NewPostgresConnection env w).err = none) ∧
    ((NewRedisConnection env w).probes = [] ∨
      (NewRedisConnection env w).probes =
        [{ store := .redis, deadline := some (5 * Second) }]) ∧
    ((∃ n, Atoi (getEnvOrDefault env "REDIS_DB" "0") = .ok n) →
      (NewRedisConnection env w).probes.length = 1) ∧
    (w.ping .redis 0 ≠ .ok →
      (NewRedisConnection env w).client = none ∧ (NewRedisConnection env w).err ≠ none) ∧
    ((NewRedisConnection env w).err = none →
      w.ping .redis 0 = .ok ∧ (NewRedisConnection env w).probes.length = 1 ∧
      (NewRedisConnection env w).client ≠ none) ∧
    ((NewRedisConnection env w).client ≠ none → (NewRedisConnection env w).err = none) := by
  refine ⟨?_, ?_, ?_, ?_, ?_, ?_, ?_, ?_, ?_, ?_⟩
  · unfold NewPostgresConnection
    simp only [Backend.Ping]
    split
    · exact Or.inl rfl
    · split <;> exact Or.inr rfl
  · intro hopen
    unfold NewPostgresConnection
    simp only [Backend.Ping, hopen]
    split <;> rfl
  · intro hping
    obtain ⟨e, he⟩ := err_ne_none_of_ne_ok _ hping
    unfold NewPostgresConnection
    simp only [Backend.Ping]
    split
    · exact ⟨rfl, by simp⟩
    · simp [he]
  · unfold NewPostgresConnection
    simp only [Backend.Ping]
    split
    · intro h; cases h
    · split
      · intro h; cases h
      · rename_i hnone
        intro _
        exact ⟨(err_none_iff_ok _).1 hnone, rfl, by simp⟩
  · unfold NewPostgresConnection
    simp only [Backend.Ping]
    split
    · intro h; exact absurd rfl h
    · split
      · intro h; exact absurd rfl h
      · intro _; rfl
  · unfold NewRedisConnection
    simp only [Backend.Ping]
    split
    · exact Or.inl rfl
    · split <;> exact Or.inr rfl
  · rintro ⟨n, hn⟩
    unfold NewRedisConnection
    simp only [Backend.Ping, hn]
    split <;> rfl
  · intro hping
    obtain ⟨e, he⟩ := err_ne_none_of_ne_ok _ hping
    unfold NewRedisConnection
    simp only [Backend.Ping]
    split
    · exact ⟨rfl, by simp⟩
    · simp [he]
  · unfold NewRedisConnection
    simp only [Backend.Ping]
    split
    · intro h; cases h
    · split
      · intro h; cases h
      · rename_i hnone
        intro _
        exact ⟨(err_none_iff_ok _).1 hnone, rfl, by simp⟩
  · unfold NewRedisConnection
    simp only [Backend.Ping]
    split
    · intro h; exact absurd rfl h
    · split
      · intro h; exact absurd rfl h
      · intro _; rfl

/-- C7 witness: a refused first relational probe and a timed-out first key-value probe
(later probes would succeed) give no client and an error after one probe; with a healthy
backend both constructors return a client and a nil error after one successful probe. -/
theorem constructors_fail_fast_witness :
    ((NewPostgresConnection emptyEnv postgresDownBackend).client = none ∧
      (NewPostgresConnection emptyEnv postgresDownBackend).err ≠ none) ∧
    (NewPostgresConnection emptyEnv postgresDownBackend).probes.length = 1 ∧
    ((NewRedisConnection emptyEnv redisDownBackend).client = none ∧
      (NewRedisConnection emptyEnv redisDownBackend).err ≠ none) ∧
    (NewRedisConnection emptyEnv redisDownBackend).probes.length = 1 ∧
    (healthyBackend.ping .postgres 0 = .ok ∧
      (NewPostgresConnection emptyEnv healthyBackend).probes.length = 1 ∧
      (NewPostgresConnection emptyEnv healthyBackend).client ≠ none) ∧
    (healthyBackend.ping .redis 0 = .ok ∧
      (NewRedisConnection emptyEnv healthyBackend).probes.length = 1 ∧
      (NewRedisConnection emptyEnv healthyBackend).client ≠ none) ∧
    (NewPostgresConnection emptyEnv healthyBackend).err = none ∧
    (NewRedisConnection emptyEnv healthyBackend).err = none :=
  ⟨(constructors_fail_fast emptyEnv postgresDownBackend).2.2.1 (by decide),
   (constructors_fail_fast emptyEnv postgresDownBackend).2.1 (fun _ => rfl),
   (constructors_fail_fast emptyEnv redisDownBackend).2.2.2.2.2.2.2.1 (by decide),
   (constructors_fail_fast emptyEnv redisDownBackend).2.2.2.2.2.2.1 ⟨0, rfl⟩,
   (constructors_fail_fast emptyEnv healthyBackend).2.2.2.1 (by decide),
   (constructors_fail_fast emptyEnv healthyBackend).2.2.2.2.2.2.2.2.1 (by decide),
   (constructors_fail_fast emptyEnv healthyBackend).2.2.2.2.1 (by decide),
   (constructors_fail_fast emptyEnv healthyBackend).2.2.2.2.2.2.2.2.2 (by decide)⟩

/-- C8: the key-value probe is issued with a 5 second deadline, but the relational probe
is issued without any deadline, for every environment and backend. -/
theorem postgres_probe_has_no_deadline (env : Env) (w : Backend) :
    ((NewPostgresConnection env w).probes.map Probe.deadline = [] ∨
      (NewPostgresConnection env w).probes.map Probe.deadline = [none]) ∧
    ((NewRedisConnection env w).probes.map Probe.deadline = [] ∨
      (NewRedisConnection env w).probes.map Probe.deadline = [some 5000000000]) ∧
    (NewPostgresConnection emptyEnv healthyBackend).probes =
      [{ store := .postgres, deadline := none }] ∧
    (NewRedisConnection emptyEnv healthyBackend).probes =
      [{ store := .redis, deadline := some (5 * Second) }] := by
  refine ⟨?_, ?_, by decide, by decide⟩
  · unfold NewPostgresConnection
    simp only [Backend.Ping]
    split
    · exact Or.inl rfl
    · split <;> exact Or.inr rfl
  · unfold NewRedisConnection
    simp only [Backend.Ping]
    split
    · exact Or.inl rfl
    · split <;> exact Or.inr rfl

/-- C6: when the key-value constructor fails after the relational pool was acquired, and
when the listener fails after both pools were acquired, `main` ends in `Fatal` and no
`Close` runs; the pools are closed only when `main` returns. -/
theorem fatal_exit_skips_pool_close :
    main emptyEnv redisDownBackend runReturns =
      [.acquired .postgres, .fatal "Failed to connect to Redis", .exit 1] ∧
    BootEvent.closed .postgres ∉ main emptyEnv redisDownBackend runReturns ∧
    main emptyEnv healthyBackend bindFails =
      [.acquired .postgres, .acquired .redis, .info "Starting server", .listen ":8080",
       .fatal "Failed to start server", .exit 1] ∧
    BootEvent.closed .postgres ∉ main emptyEnv healthyBackend bindFails ∧
    BootEvent.closed .redis ∉ main emptyEnv healthyBackend bindFails ∧
    main emptyEnv healthyBackend runReturns =
      [.acquired .postgres, .acquired .redis, .info "Starting server", .listen ":8080",
       .closed .redis, .closed .postgres, .mainReturned] := by
  decide

end MctApi
